import Mathlib

/-!
Shallow embedding of the channel_access.server bridge layer (the
PV proxy, server proxy and async-write completion token of the `cas`
extension module) together with proofs of its specified properties.

The embedding models CPython-level data as an inductive `PyVal` type,
handler objects as records of per-method call outcomes, and the native
EPICS `caStatus` codes as an inductive `CaStatus`.  Reference-count
bookkeeping performed by the bridge (`Py_INCREF`/`Py_DECREF`) is made
explicit in the states and effect traces.

Functions of the repository's conversion layer (convert.cpp) and of the
external protocol engine are not part of the translated sources; where a
proof needs them they are modelled from the specification and marked as
such in their doc comments.
-/

namespace ChannelAccessServer

/-- The host-side type enumeration (`channel_access.common.Type`),
re-exported by the module as `cas::enum_type`. -/
inductive TypeTag where
  | string
  | enum
  | char
  | short
  | long
  | float
  | double
  deriving DecidableEq, Repr

/-- The native element-type codes (`aitEnum`), restricted to the subset the
bridge uses; `invalid` is `aitEnumInvalid`. -/
inductive AitEnum where
  | invalid
  | aitString
  | aitEnum16
  | aitInt8
  | aitInt16
  | aitInt32
  | aitFloat32
  | aitFloat64
  deriving DecidableEq, Repr

/-- Native status codes (`caStatus`) used by the bridge.  `success` stands
for the zero code (`S_casApp_success` and `S_cas_success` are both 0);
`canceledAsync` is `S_casApp_canceledAsyncIO`; `otherFailure` stands for any
remaining nonzero failure code. -/
inductive CaStatus where
  | success
  | noSupport
  | pvNotFound
  | noMemory
  | canceledAsync
  | asyncCompletion
  | redundantPost
  | otherFailure
  deriving DecidableEq, Repr

/-- Bridge-local exists-response enumeration registered by `add_exists`. -/
inductive ExistsResponse where
  | existsHere
  | notExistsHere
  deriving DecidableEq, Repr

/-- Bridge-local attach-response enumeration registered by `add_attach`. -/
inductive AttachResponse where
  | noMemory
  | notFound
  deriving DecidableEq, Repr

/-- Event-mask vocabulary supported by the server
(value-change, log, alarm). -/
inductive EventFlag where
  | value
  | log
  | alarm
  deriving DecidableEq, Repr

/-- The host-visible state of a `Pv` object (struct `Pv` in pv.cpp): the
name fixed at construction, the engine-retention flag, and the CPython
reference count of the object, which the bridge manipulates explicitly. -/
structure PvState where
  name : String
  held_by_server : Bool
  refcount : Nat
  deriving DecidableEq, Repr

/-- The host-visible state of an `AsyncWrite` token object (struct
`AsyncWrite` in async.cpp). -/
structure AsyncWriteState where
  held_by_server : Bool
  refcount : Nat
  deriving DecidableEq, Repr

/-- Dynamically typed host values as far as the bridge inspects them. -/
inductive PyVal where
  | pyNone
  | pyBool (b : Bool)
  | pyInt (n : Int)
  | pyBytes (s : String)
  | pyTuple (vs : List PyVal)
  | pyDict (entries : List (String × PyVal))
  | typeTag (t : TypeTag)
  | existsResp (e : ExistsResponse)
  | attachResp (a : AttachResponse)
  | eventFlag (e : EventFlag)
  | pvObj (st : PvState)
  | token (st : AsyncWriteState)
  | otherObj

/-- `PyObject_IsTrue`: `None`, `False`, zero, and empty containers are
falsy; every other object (including enum members, PV objects and
AsyncWrite tokens, which define no truthiness hooks) is truthy. -/
def pyIsTrue : PyVal → Bool
  | .pyNone => false
  | .pyBool b => b
  | .pyInt n => n != 0
  | .pyBytes s => s.length != 0
  | .pyTuple vs => vs.length != 0
  | .pyDict entries => entries.length != 0
  | _ => true

/-- `PyLong_Check`: ints and bools (bool is an int subclass). -/
def pyLongCheck : PyVal → Bool
  | .pyInt _ => true
  | .pyBool _ => true
  | _ => false

/-- Smallest value of the C `long` type (64-bit). -/
def longMin : Int := -(2 ^ 63)

/-- Largest value of the C `long` type (64-bit). -/
def longMax : Int := 2 ^ 63 - 1

/-- `PyLong_AsLong`: the value of an int in the `long` range, 0/1 for a
bool; `none` models the error return (-1 with `OverflowError` set for an
out-of-range int, `TypeError` for a non-integer object). -/
def pyLongAsLong : PyVal → Option Int
  | .pyInt n => if longMin ≤ n ∧ n ≤ longMax then some n else none
  | .pyBool b => some (if b then 1 else 0)
  | _ => none

/-- Outcome of calling a handler method: the call either raises (the C API
returns NULL with the error indicator set) or returns a value. -/
inductive CallOutcome where
  | raise
  | ret (v : PyVal)

/-- Pointer comparison against the `Py_None` singleton. -/
def isPyNone : PyVal → Bool
  | .pyNone => true
  | _ => false

/-- A PV handler object as seen through `PyObject_GetAttrString` followed
by a call: each method slot is `none` when the attribute lookup itself
fails, otherwise the outcome of calling the method.  `writeAttr` maps the
argument tuple to its outcome. -/
structure PvHandler where
  destroyAttr : Option CallOutcome
  typeAttr : Option CallOutcome
  countAttr : Option CallOutcome
  readAttr : Option CallOutcome
  writeAttr : Option (PyVal → CallOutcome)
  interestRegisterAttr : Option CallOutcome
  interestDeleteAttr : Option CallOutcome

/-- Observable effects of a bridge callback, used to express locking,
re-entry and reference-count obligations. -/
inductive Effect where
  | acquireLock
  | releaseLock
  | callHandler (method : String)
  | logUnraisable
  | incref
  | decref
  deriving DecidableEq, Repr

/-- `pv_init`: stores a copy of the name argument and starts with the
engine-retention flag clear; a freshly constructed object has one
host-side reference. -/
def pv_init (name : String) : PvState :=
  { name := name, held_by_server := false, refcount := 1 }

/-- `PvProxy::getName`: reads the stored `name` field of the `Pv` struct
directly.  It takes no handler, acquires no lock and performs no effects,
mirroring the C++ body, which is a single field read. -/
def PvProxy_getName (st : PvState) : String × List Effect :=
  (st.name, [])

/-- `give_to_server` (pv.cpp): a non-PV object is a `TypeError` (`none`);
a PV object already held by the server is returned unchanged; otherwise
the reference count is incremented and the flag set. -/
def give_to_server : PyVal → Option PvState
  | .pvObj st =>
      if st.held_by_server then some st
      else some { st with refcount := st.refcount + 1, held_by_server := true }
  | _ => none

/-- `give_async_write_to_server` (async.cpp): a non-token object is
refused; a token object has its flag set and its reference count
incremented unconditionally — there is no already-held check. -/
def give_async_write_to_server : PyVal → PyVal × Bool
  | .token st =>
      (.token { held_by_server := true, refcount := st.refcount + 1 }, true)
  | o => (o, false)

/-- `PvProxy::destroy`: under the lock, re-enter the handler's `destroy`
method (logging and clearing any error), then — if and only if the object
is currently held by the server — clear the flag and drop the engine's
reference. -/
def PvProxy_destroy (h : PvHandler) (st : PvState) : PvState × List Effect :=
  let callFx : List Effect :=
    match h.destroyAttr with
    | none => [.logUnraisable]
    | some .raise => [.callHandler "destroy", .logUnraisable]
    | some (.ret _) => [.callHandler "destroy"]
  if st.held_by_server then
    ({ st with held_by_server := false, refcount := st.refcount - 1 },
      .acquireLock :: callFx ++ [.decref, .releaseLock])
  else
    (st, .acquireLock :: callFx ++ [.releaseLock])

/-- Number of `Py_DECREF` effects in a trace. -/
def countDecref (fx : List Effect) : Nat :=
  fx.countP (fun e => e = Effect.decref)

/-- Number of handler re-entries in a trace. -/
def countHandlerCalls (fx : List Effect) : Nat :=
  fx.countP (fun e => match e with | .callHandler _ => true | _ => false)

/-- No handler re-entry occurs after a `Py_DECREF` in the trace. -/
def noHandlerCallAfterDecref : List Effect → Bool
  | [] => true
  | .decref :: rest =>
      rest.all (fun e => match e with | .callHandler _ => false | _ => true)
      && noHandlerCallAfterDecref rest
  | _ :: rest => noHandlerCallAfterDecref rest

/-- Modelled from the spec: `symbolToNativeCode` of the conversion layer
(convert.cpp is not under src/): maps the closed host-side type enumeration
to the native element-type code; any other value fails
(`UnknownEnumValue`), in which case the C function leaves its output
parameter untouched. -/
def to_ait_enum : PyVal → Option AitEnum
  | .typeTag .string => some .aitString
  | .typeTag .enum => some .aitEnum16
  | .typeTag .char => some .aitInt8
  | .typeTag .short => some .aitInt16
  | .typeTag .long => some .aitInt32
  | .typeTag .float => some .aitFloat32
  | .typeTag .double => some .aitFloat64
  | _ => none

/-- Modelled from the spec: the range check of `attributesToValue` — a
value fits a declared numeric kind only when it lies in the kind's
representable range; strings require bytes; floating kinds accept any
int here (the claims under proof do not exercise float payloads). -/
def valueFits : PyVal → AitEnum → Bool
  | .pyBytes _, .aitString => true
  | .pyInt n, .aitInt8 => -128 ≤ n ∧ n ≤ 127
  | .pyInt n, .aitInt16 => -32768 ≤ n ∧ n ≤ 32767
  | .pyInt n, .aitEnum16 => 0 ≤ n ∧ n ≤ 65535
  | .pyInt n, .aitInt32 => -2147483648 ≤ n ∧ n ≤ 2147483647
  | .pyInt _, .aitFloat32 => true
  | .pyInt _, .aitFloat64 => true
  | _, _ => false

/-- Modelled from the spec: `attributesToValue` (`to_gdd` in convert.cpp,
not under src/): reads the "value" attribute of the mapping and produces a
container of the declared type; fails with `MissingValue` when no value
attribute is present and with a mismatch error when the value does not fit
the declared kind. -/
def to_gdd : PyVal → AitEnum → Bool
  | .pyDict entries, t =>
      match entries.lookup "value" with
      | none => false
      | some v => valueFits v t
  | _, _ => false

/-- A native value container as delivered to `PvProxy::write`: the payload
(already in host representation for this model) and the EPICS timestamp. -/
structure Gdd where
  value : PyVal
  secs : Int
  nsecs : Int

/-- Modelled from the spec: `valueToAttributes` (`from_gdd` in convert.cpp,
not under src/): reconstructs the value plus a timestamp tuple in the
tuple shape the handler's `write(value, timestamp)` method expects. -/
def from_gdd (g : Gdd) : Option PyVal :=
  some (.pyTuple [g.value, .pyTuple [.pyInt g.secs, .pyInt g.nsecs]])

/-- Modelled from the spec: event-mask resolution of the conversion layer
(`to_event_mask` in convert.cpp, not under src/): resolves a sequence of
event flags against the server's supported mask vocabulary; an empty or
unparseable sequence fails. -/
def to_event_mask : PyVal → Option (List EventFlag)
  | .pyTuple vs =>
      match vs.mapM (fun v => match v with | .eventFlag e => some e | _ => none) with
      | none => none
      | some flags => if flags.isEmpty then none else some flags
  | _ => none

/-- `PvProxy::bestExternalType`: starts from the `aitEnumString` fallback,
re-enters the handler's `type` method and keeps the fallback on any
failure (missing attribute, exception, unconvertible return). -/
def PvProxy_bestExternalType (h : PvHandler) : AitEnum :=
  match h.typeAttr with
  | none => .aitString
  | some .raise => .aitString
  | some (.ret v) => (to_ait_enum v).getD .aitString

/-- `PvProxy::maxDimension`: re-enters the handler's `count` method.
`none` models a fault: when the call raises, the error is logged and
cleared, but the NULL call result is then passed to `PyLong_Check`, which
dereferences it.  An out-of-`long`-range count makes `PyLong_AsLong`
return -1 with an error set, so the comparison `count > 1` is false and 0
is returned. -/
def PvProxy_maxDimension (h : PvHandler) : Option Nat :=
  match h.countAttr with
  | none => some 0
  | some .raise => none
  | some (.ret v) =>
      if pyLongCheck v then
        match pyLongAsLong v with
        | some c => some (if 1 < c then 1 else 0)
        | none => some 0
      else some 0

/-- `PvProxy::maxBound`: re-enters the handler's `count` method, ignoring
the dimension argument.  The call result is guarded (`if (result)`), the
`long` value is truncated into the unsigned 32-bit `aitIndex`, and on any
conversion error the default 0 is kept. -/
def PvProxy_maxBound (h : PvHandler) (dimension : Nat) : Nat :=
  match h.countAttr with
  | none => 0
  | some .raise => 0
  | some (.ret v) =>
      match pyLongAsLong v with
      | none => 0
      | some n => (n % (2 ^ 32)).toNat

/-- `PvProxy::read`: re-enters `type` (leaving the type invalid on any
failure), then — only with a valid type — re-enters `read`; a missing or
`None` result or a failed conversion yields `S_casApp_noSupport`, a
converted container yields success. -/
def PvProxy_read (h : PvHandler) : CaStatus :=
  let t : AitEnum :=
    match h.typeAttr with
    | none => .invalid
    | some .raise => .invalid
    | some (.ret v) => (to_ait_enum v).getD .invalid
  if t = .invalid then .noSupport
  else
    match h.readAttr with
    | none => .noSupport
    | some .raise => .noSupport
    | some (.ret v) =>
        if isPyNone v then .noSupport
        else if to_gdd v t then .success else .noSupport

/-- `PvProxy::write`: converts the container to the handler's argument
shape, re-enters the handler's `write` method and interprets the result
with `PyObject_IsTrue`: a truthy return is success, anything else —
conversion failure, missing attribute, exception, falsy return — is
`S_casApp_noSupport`.  No other status is ever produced: the translated
body contains no async-token handling. -/
def PvProxy_write (h : PvHandler) (g : Gdd) : CaStatus :=
  match from_gdd g with
  | none => .noSupport
  | some args =>
      match h.writeAttr with
      | none => .noSupport
      | some call =>
          match call args with
          | .raise => .noSupport
          | .ret v => if pyIsTrue v then .success else .noSupport

/-- `PvProxy::interestRegister`: re-enters the handler's method; a truthy
return is success, anything else is `S_casApp_noSupport`. -/
def PvProxy_interestRegister (h : PvHandler) : CaStatus :=
  match h.interestRegisterAttr with
  | none => .noSupport
  | some .raise => .noSupport
  | some (.ret v) => if pyIsTrue v then .success else .noSupport

/-- `PvProxy::interestDelete`: re-enters the handler's method; the native
contract is void, so the only observable is the number of errors written
to the diagnostic sink (`PyErr_WriteUnraisable`) and cleared. -/
def PvProxy_interestDelete (h : PvHandler) : Nat :=
  match h.interestDeleteAttr with
  | none => 1
  | some .raise => 1
  | some (.ret _) => 0

/-- `PyArg_ParseTuple(args, "OO", ...)`: exactly two positional
arguments. -/
def parseTwo : PyVal → Option (PyVal × PyVal)
  | .pyTuple [a, b] => some (a, b)
  | _ => none

/-- Outcome of a `postEvent` call: whether it returned `None` (as opposed
to NULL with an exception set), how many transient event-value containers
were allocated and how many were released before returning. -/
structure PostEventOutcome where
  ok : Bool
  allocated : Nat
  released : Nat
  deriving DecidableEq, Repr

/-- `PvProxy::postEvent` (the host-initiated method): parses the two
arguments, resolves the PV's declared type via the handler, requires an
attached server, resolves the event mask, and only then allocates the
transient `gdd` container; the container is unreferenced exactly once on
the conversion-failure path, the native-exception path and the success
path.  `serverAttached` models `getCAS()` returning non-NULL and
`postThrows` the native notification call throwing. -/
def PvProxy_postEvent (h : PvHandler) (serverAttached : Bool)
    (postThrows : Bool) (args : PyVal) : PostEventOutcome :=
  match parseTwo args with
  | none => ⟨false, 0, 0⟩
  | some (py_events, py_values) =>
      match h.typeAttr with
      | none => ⟨false, 0, 0⟩
      | some .raise => ⟨false, 0, 0⟩
      | some (.ret tv) =>
          match to_ait_enum tv with
          | none => ⟨false, 0, 0⟩
          | some t =>
              if t = .invalid then ⟨false, 0, 0⟩
              else if !serverAttached then ⟨false, 0, 0⟩
              else
                match to_event_mask py_events with
                | none => ⟨false, 0, 0⟩
                | some _mask =>
                    if !to_gdd py_values t then ⟨false, 1, 1⟩
                    else if postThrows then ⟨false, 1, 1⟩
                    else ⟨true, 1, 1⟩

/-- Result of a Python-level method: `ok` models `Py_RETURN_NONE`,
`raised` models returning NULL with an exception set. -/
inductive PyRes where
  | ok
  | raised
  deriving DecidableEq, Repr

/-- Modelled from the spec: the native engine's completion queue behind
`casAsyncWriteIO::postIOCompletion` (part of the external protocol
engine): the first post enqueues its status and succeeds; every later
post is answered with the redundant-post status and changes nothing. -/
structure EngineState where
  posted : Option CaStatus
  deriving DecidableEq, Repr

/-- Modelled from the spec: `postIOCompletion` — deliver on first post,
report a redundant post afterwards. -/
def postIOCompletion (e : EngineState) (s : CaStatus) : EngineState × CaStatus :=
  match e.posted with
  | none => ({ posted := some s }, .success)
  | some _ => (e, .redundantPost)

/-- The `switch` in `AsyncWriteProxy::post`: success and redundant post
are accepted silently; any other engine status raises `RuntimeError`. -/
def postReaction : CaStatus → PyRes
  | .success => .ok
  | .redundantPost => .ok
  | _ => .raised

/-- `AsyncWriteProxy::post`: forwards the status to the engine's
completion entry point and maps the engine's answer through the
acceptance switch. -/
def AsyncWriteProxy_post (e : EngineState) (s : CaStatus) : EngineState × PyRes :=
  let step := postIOCompletion e s
  (step.1, postReaction step.2)

/-- `AsyncWriteProxy::complete`: posts `S_casApp_success`. -/
def AsyncWrite_complete (e : EngineState) : EngineState × PyRes :=
  AsyncWriteProxy_post e .success

/-- `AsyncWriteProxy::fail`: posts `S_casApp_canceledAsyncIO`. -/
def AsyncWrite_fail (e : EngineState) : EngineState × PyRes :=
  AsyncWriteProxy_post e .canceledAsync

/-- `AsyncWriteProxy::destroy` (the engine's teardown callback on the
token): drops the host-side reference if and only if the token is
currently held by the server. -/
def AsyncWriteProxy_destroy (st : AsyncWriteState) : AsyncWriteState :=
  if st.held_by_server then
    { held_by_server := false, refcount := st.refcount - 1 }
  else st

/-- A server handler object, seen as its two method slots; each maps the
call arguments to an outcome (`none` models a failed attribute lookup). -/
structure ServerHandler where
  pvExistTestAttr : Option (PyVal → CallOutcome)
  pvAttachAttr : Option (PyVal → CallOutcome)

/-- Modelled from the spec: `to_exist_return` of the conversion layer
(convert.cpp is not under src/): maps the exists-response enumeration to
the native answer and fails on any other value, leaving the caller's
conservative default in place. -/
def to_exist_return : PyVal → Option ExistsResponse
  | .existsResp e => some e
  | _ => none

/-- The result of the native `pvAttach` call: either a PV proxy handed to
the engine or a status code. -/
inductive AttachReturn where
  | attached (st : PvState)
  | status (s : CaStatus)

/-- Modelled from the spec: `to_attach_return` of the conversion layer
(convert.cpp is not under src/): a PV instance is handed to the native
engine exactly as in `give_to_server` and becomes the attach result; the
enumerated failure reasons map to their native codes (`NO_MEMORY` to
`S_casApp_noMemory`, `NOT_FOUND` to `S_casApp_pvNotFound`); any other
value fails and leaves the caller's result unchanged. -/
def to_attach_return : PyVal → Option AttachReturn
  | .pvObj st =>
      match give_to_server (.pvObj st) with
      | some held => some (.attached held)
      | none => none
  | .attachResp .noMemory => some (.status .noMemory)
  | .attachResp .notFound => some (.status .pvNotFound)
  | _ => none

/-- `ServerProxy::pvExistTest`: starts from the conservative
does-not-exist-here default, re-enters the handler with the decomposed
address and the PV name, and keeps the default on any failure. -/
def ServerProxy_pvExistTest (h : ServerHandler) (host port : Int)
    (name : String) : ExistsResponse :=
  match h.pvExistTestAttr with
  | none => .notExistsHere
  | some call =>
      match call (.pyTuple [.pyTuple [.pyInt host, .pyInt port], .pyBytes name]) with
      | .raise => .notExistsHere
      | .ret v => (to_exist_return v).getD .notExistsHere

/-- `ServerProxy::pvAttach`: starts from the `S_casApp_pvNotFound`
default, re-enters the handler with the PV name, and keeps the default on
any failure or unmapped response. -/
def ServerProxy_pvAttach (h : ServerHandler) (name : String) : AttachReturn :=
  match h.pvAttachAttr with
  | none => .status .pvNotFound
  | some call =>
      match call (.pyBytes name) with
      | .raise => .status .pvNotFound
      | .ret v => (to_attach_return v).getD (.status .pvNotFound)

/-- The static default `PV.type`: `channel_access.common.Type.STRING`. -/
def PV_default_type : PyVal := .typeTag .string

/-- The static default `PV.count`: `PyLong_FromLong(1)`. -/
def PV_default_count : PyVal := .pyInt 1

/-- The static default `PV.read`: `Py_RETURN_NONE`. -/
def PV_default_read : PyVal := .pyNone

/-- The static default `PV.write(value, timestamp)`: `Py_RETURN_FALSE`,
whatever the arguments. -/
def PV_default_write (args : PyVal) : PyVal := .pyBool false

/-- The static default `PV.interestRegister`: `Py_RETURN_FALSE`. -/
def PV_default_interestRegister : PyVal := .pyBool false

/-- `PyArg_ParseTuple(args, "(kH)y", ...)`: a pair of an (host, port)
tuple of integers and a bytes name. -/
def parseExistArgs : PyVal → Option ((Int × Int) × String)
  | .pyTuple [.pyTuple [.pyInt host, .pyInt port], .pyBytes name] =>
      some ((host, port), name)
  | _ => none

/-- `PyArg_ParseTuple(args, "y", ...)`: a single bytes name. -/
def parseAttachArgs : PyVal → Option String
  | .pyTuple [.pyBytes name] => some name
  | _ => none

/-- The static default `Server.pvExistTest(address, name)`: parses its
arguments and returns the `NOT_EXISTS_HERE` member. -/
def Server_default_pvExistTest (args : PyVal) : Option PyVal :=
  match parseExistArgs args with
  | none => none
  | some _ => some (.existsResp .notExistsHere)

/-- The static default `Server.pvAttach(name)`: parses its arguments and
returns the `NOT_FOUND` member. -/
def Server_default_pvAttach (args : PyVal) : Option PyVal :=
  match parseAttachArgs args with
  | none => none
  | some _ => some (.attachResp .notFound)

/-- A handler behaving like the Python-level default implementations of
the `PV` base class, used as a base point for concrete handler
instances. -/
def defaultHandler : PvHandler :=
  { destroyAttr := some (.ret .pyNone)
    typeAttr := some (.ret (.typeTag .string))
    countAttr := some (.ret (.pyInt 1))
    readAttr := some (.ret .pyNone)
    writeAttr := some (fun _ => .ret (.pyBool false))
    interestRegisterAttr := some (.ret (.pyBool false))
    interestDeleteAttr := some (.ret .pyNone) }

/-- A lifecycle operation on a PV object: the handler object is either
handed to the native engine or torn down by the engine's callback. -/
inductive PvOp where
  | register
  | teardown (h : PvHandler)

/-- Run a sequence of lifecycle operations on a PV state. -/
def runPvOps : List PvOp → PvState → PvState
  | [], st => st
  | .register :: ops, st => runPvOps ops ((give_to_server (.pvObj st)).getD st)
  | .teardown h :: ops, st => runPvOps ops (PvProxy_destroy h st).1

/-- A handler whose `write` method returns an AsyncWrite token object. -/
def tokenWriteHandler : PvHandler :=
  { defaultHandler with
      writeAttr := some (fun _ => .ret (.token { held_by_server := false, refcount := 1 })) }

/-- A handler whose `count` method raises an exception. -/
def raisingCountHandler : PvHandler :=
  { defaultHandler with countAttr := some .raise }

/-- A handler whose `count` method returns the integer `n`. -/
def intCountHandler (n : Int) : PvHandler :=
  { defaultHandler with countAttr := some (.ret (.pyInt n)) }

/-- Names are preserved by every lifecycle operation: neither registration
nor teardown touches the stored name. -/
theorem runPvOps_name (ops : List PvOp) (st : PvState) :
    (runPvOps ops st).name = st.name := by
  induction ops generalizing st with
  | nil => rfl
  | cons op ops ih =>
      cases op with
      | register =>
          cases hst : st.held_by_server <;>
            simp [runPvOps, give_to_server, hst, ih]
      | teardown h =>
          cases hst : st.held_by_server <;>
            simp [runPvOps, PvProxy_destroy, hst, ih]

/-- C1 counterexample: handing an AsyncWrite token that the server already
holds to the server a second time increments the retained-reference count
again (from 1 to 2); the claim asserts the count would stay at one. -/
theorem give_async_write_double_increment :
    give_async_write_to_server (.token { held_by_server := true, refcount := 1 })
      = (.token { held_by_server := true, refcount := 2 }, true) ∧
    (2 : Nat) ≠ 1 :=
  ⟨rfl, by decide⟩

/-- C1 (amended): handing a PV object to the native engine is idempotent —
when the PV is already held, neither its reference count nor its flag
changes — but handing an AsyncWrite token unconditionally sets the flag
and increments the retained count, even when the token is already held,
so for tokens the engine-side retained count is not capped at one. -/
theorem give_to_server_pv_idempotent (st : PvState) (tk : AsyncWriteState) :
    give_to_server (.pvObj st)
      = some (if st.held_by_server then st
              else { st with refcount := st.refcount + 1, held_by_server := true }) ∧
    give_async_write_to_server (.token tk)
      = (.token { held_by_server := true, refcount := tk.refcount + 1 }, true) := by
  refine ⟨?_, rfl⟩
  cases hst : st.held_by_server <;> simp [give_to_server, hst]

/-- C2: the write callback has no async-token handling: a handler
returning an Async Completion Token gets the token treated as an ordinary
truthy value, so the call yields `S_casApp_success` instead of the pending
status, and no ownership transfer to the native engine takes place (the
translated body of `PvProxy::write` never reaches
`give_async_write_to_server`). -/
theorem write_token_yields_success_not_pending :
    PvProxy_write tokenWriteHandler { value := .pyInt 5, secs := 7, nsecs := 9 }
      = .success ∧
    CaStatus.success ≠ .asyncCompletion :=
  ⟨rfl, by decide⟩

/-- C3: when the handler's `count` method raises, `maxDimension` passes
the NULL call result to `PyLong_Check` and faults (modelled as `none`),
instead of logging the error and returning its conservative default;
`maxBound` on the very same handler guards the result and safely returns
0, so the containment contract is broken in exactly this callback. -/
theorem maxDimension_faults_on_raising_count :
    PvProxy_maxDimension raisingCountHandler = none ∧
    PvProxy_maxBound raisingCountHandler 0 = 0 :=
  ⟨rfl, rfl⟩

/-- C4: the teardown callback re-enters the handler's `destroy` method
before any release, always clears the held flag and keeps the name,
releases the engine's reference exactly when the object was held, and a
second teardown (with any handler) releases nothing — no double release
can occur. -/
theorem destroy_releases_iff_registered (h h2 : PvHandler) (st : PvState) :
    (PvProxy_destroy h st).1.held_by_server = false ∧
    (PvProxy_destroy h st).1.name = st.name ∧
    countDecref (PvProxy_destroy h st).2 = (if st.held_by_server then 1 else 0) ∧
    countHandlerCalls (PvProxy_destroy h st).2
      = (if h.destroyAttr.isSome then 1 else 0) ∧
    noHandlerCallAfterDecref (PvProxy_destroy h st).2 = true ∧
    countDecref (PvProxy_destroy h2 (PvProxy_destroy h st).1).2 = 0 := by
  rcases h with ⟨hd, _, _, _, _, _, _⟩
  rcases h2 with ⟨hd2, _, _, _, _, _, _⟩
  cases hst : st.held_by_server <;>
    rcases hd with _ | (_ | v) <;>
    rcases hd2 with _ | (_ | v2) <;>
      simp [PvProxy_destroy, countDecref, countHandlerCalls,
        noHandlerCallAfterDecref, hst]

/-- C5: at most one completion post has an effect.  The first
`complete`/`fail` on an unposted token delivers its status to the engine
queue and returns cleanly; on an already-posted token both calls leave
the queue unchanged and still return cleanly, because the redundant-post
answer is accepted by the status switch; that switch raises an error only
for an engine status other than success and redundant-post. -/
theorem async_post_first_wins (e : EngineState) (s0 s : CaStatus)
    (hp : e.posted = some s0) :
    AsyncWrite_complete { posted := none }
      = ({ posted := some .success }, .ok) ∧
    AsyncWrite_fail { posted := none }
      = ({ posted := some .canceledAsync }, .ok) ∧
    AsyncWrite_complete e = (e, .ok) ∧
    AsyncWrite_fail e = (e, .ok) ∧
    (postReaction s = .raised ↔ (s ≠ .success ∧ s ≠ .redundantPost)) := by
  refine ⟨rfl, rfl, ?_, ?_, ?_⟩
  · simp [AsyncWrite_complete, AsyncWriteProxy_post, postIOCompletion, hp, postReaction]
  · simp [AsyncWrite_fail, AsyncWriteProxy_post, postIOCompletion, hp, postReaction]
  · cases s <;> simp [postReaction]

/-- C5 witness: a second `complete` on a token whose engine queue already
holds a posted status is a clean no-op. -/
theorem async_post_first_wins_witness :
    AsyncWrite_complete { posted := some CaStatus.success }
      = ({ posted := some CaStatus.success }, .ok) :=
  (async_post_first_wins { posted := some .success } .success .noSupport rfl).2.2.1

/-- C6: at every point of a PV's lifetime — whatever registration and
teardown operations have happened — `getName` returns exactly the name
passed at construction, with an empty effect trace: it acquires no lock
and re-enters no handler (it does not even consult one). -/
theorem getName_fixed_and_effect_free (nm : String) (ops : List PvOp) :
    PvProxy_getName (runPvOps ops (pv_init nm)) = (nm, []) := by
  simp [PvProxy_getName, runPvOps_name, pv_init]

/-- C7 counterexample: a handler whose count() returns 2^63 — an integer
greater than 1, but outside the C `long` range — makes `maxDimension`
return 0 instead of the claimed 1 (`PyLong_AsLong` overflows to -1 with
an error set, so `count > 1` is false), and makes `maxBound` return 0
instead of the raw count. -/
theorem maxDimension_overflow_counterexample :
    PvProxy_maxDimension (intCountHandler (2 ^ 63)) = some 0 ∧
    (1 : Int) < 2 ^ 63 ∧
    PvProxy_maxBound (intCountHandler (2 ^ 63)) 0 = 0 ∧
    (2 ^ 63 : Int) ≠ 0 := by
  refine ⟨by decide, by norm_num, by decide, by norm_num⟩

/-- C7 (amended): for every handler whose count() returns an integer n
that fits the C `long` type, `maxDimension` returns 1 if n > 1 and 0
otherwise; when additionally 0 ≤ n < 2^32 (so that n fits the unsigned
32-bit `aitIndex`), `maxBound` returns n itself for every dimension
argument.  Out-of-range counts fall back to 0 instead. -/
theorem single_dimension_model (n : Int) (d : Nat)
    (hlo : longMin ≤ n) (hhi : n ≤ longMax) :
    PvProxy_maxDimension (intCountHandler n) = some (if 1 < n then 1 else 0) ∧
    (0 ≤ n → n < 2 ^ 32 → PvProxy_maxBound (intCountHandler n) d = n.toNat) := by
  constructor
  · simp [PvProxy_maxDimension, intCountHandler, defaultHandler, pyLongCheck,
      pyLongAsLong, hlo, hhi]
  · intro h0 h32
    have h32n : n < (4294967296 : Int) := by norm_num at h32; exact h32
    simp [PvProxy_maxBound, intCountHandler, defaultHandler, pyLongAsLong,
      hlo, hhi]
    rw [Int.emod_eq_of_lt h0 h32n]

/-- C7 witness: a handler with count 5 exports one dimension with bound
5, for an arbitrary dimension argument. -/
theorem single_dimension_model_witness :
    PvProxy_maxDimension (intCountHandler 5) = some 1 ∧
    PvProxy_maxBound (intCountHandler 5) 3 = 5 := by
  have h := single_dimension_model 5 3 (by norm_num [longMin]) (by norm_num [longMax])
  exact ⟨by simpa using h.1, h.2 (by norm_num) (by norm_num)⟩

/-- C8: `postEvent` releases the transient event-value container exactly
as many times as it allocates it (at most once) on every path — success,
conversion failure and native-exception alike — and a call whose
event-mask sequence does not resolve (in particular an empty sequence)
fails cleanly before any container is allocated. -/
theorem postEvent_releases_container (h : PvHandler) (sa pt : Bool) (args : PyVal) :
    (PvProxy_postEvent h sa pt args).released
      = (PvProxy_postEvent h sa pt args).allocated ∧
    (PvProxy_postEvent h sa pt args).allocated ≤ 1 ∧
    (∀ evs vals, args = .pyTuple [evs, vals] → to_event_mask evs = none →
      PvProxy_postEvent h sa pt args = ⟨false, 0, 0⟩) := by
  refine ⟨?_, ?_, ?_⟩
  · unfold PvProxy_postEvent
    repeat' split <;> try rfl
  · unfold PvProxy_postEvent
    repeat' split
    all_goals decide
  · intro evs vals hargs hmask
    subst hargs
    unfold PvProxy_postEvent
    repeat' split
    all_goals first | rfl | simp_all [parseTwo]

/-- C8 witness: a well-formed call whose event-mask sequence is empty
fails cleanly with no container allocated and none released. -/
theorem postEvent_releases_container_witness :
    PvProxy_postEvent defaultHandler true false
        (.pyTuple [.pyTuple [], .pyDict [("value", .pyBytes "x")]])
      = ⟨false, 0, 0⟩ :=
  (postEvent_releases_container defaultHandler true false
      (.pyTuple [.pyTuple [], .pyDict [("value", .pyBytes "x")]])).2.2
    (.pyTuple []) (.pyDict [("value", .pyBytes "x")]) rfl rfl

/-- Inversion for the attach conversion: the only handler answer that the
conversion maps to the NoMemory status is the NoMemory member itself. -/
theorem to_attach_return_noMemory (v : PyVal) :
    to_attach_return v = some (.status .noMemory) → v = .attachResp .noMemory := by
  intro hv
  cases v
  case pyNone => simp [to_attach_return] at hv
  case pyBool => simp [to_attach_return] at hv
  case pyInt => simp [to_attach_return] at hv
  case pyBytes => simp [to_attach_return] at hv
  case pyTuple => simp [to_attach_return] at hv
  case pyDict => simp [to_attach_return] at hv
  case typeTag => simp [to_attach_return] at hv
  case existsResp => simp [to_attach_return] at hv
  case eventFlag => simp [to_attach_return] at hv
  case attachResp a =>
    cases a
    case noMemory => rfl
    case notFound => simp [to_attach_return] at hv
  case pvObj stv =>
    rcases hstv : stv.held_by_server <;>
      simp [to_attach_return, give_to_server, hstv] at hv
  case token => simp [to_attach_return] at hv
  case otherObj => simp [to_attach_return] at hv

/-- C9: the native `pvAttach` yields the NotFound status when the handler
attribute is missing, when the handler raises, when the handler's answer
is unmapped by the conversion layer, and when the handler returns the
NotFound member; the NoMemory status can only arise from the handler
explicitly returning the NoMemory member. -/
theorem pvAttach_defaults_to_notFound (h : ServerHandler) (name : String) :
    (h.pvAttachAttr = none →
      ServerProxy_pvAttach h name = .status .pvNotFound) ∧
    (∀ f, h.pvAttachAttr = some f →
      (f (.pyBytes name) = .raise →
        ServerProxy_pvAttach h name = .status .pvNotFound) ∧
      (∀ v, f (.pyBytes name) = .ret v → to_attach_return v = none →
        ServerProxy_pvAttach h name = .status .pvNotFound) ∧
      (f (.pyBytes name) = .ret (.attachResp .notFound) →
        ServerProxy_pvAttach h name = .status .pvNotFound)) ∧
    (ServerProxy_pvAttach h name = .status .noMemory →
      ∃ f, h.pvAttachAttr = some f ∧
        f (.pyBytes name) = .ret (.attachResp .noMemory)) := by
  refine ⟨?_, ?_, ?_⟩
  · intro hnone
    simp [ServerProxy_pvAttach, hnone]
  · intro f hf
    refine ⟨?_, ?_, ?_⟩
    · intro hr
      simp [ServerProxy_pvAttach, hf, hr]
    · intro v hv hconv
      simp [ServerProxy_pvAttach, hf, hv, hconv]
    · intro hv
      simp [ServerProxy_pvAttach, hf, hv, to_attach_return]
  · intro hmem
    rcases hatt : h.pvAttachAttr with _ | f
    · simp [ServerProxy_pvAttach, hatt] at hmem
    · refine ⟨f, rfl, ?_⟩
      rcases hcall : f (.pyBytes name) with _ | v
      · simp [ServerProxy_pvAttach, hatt, hcall] at hmem
      · rcases hconv : to_attach_return v with _ | r
        · simp [ServerProxy_pvAttach, hatt, hcall, hconv] at hmem
        · rcases r with st2 | s
          · simp [ServerProxy_pvAttach, hatt, hcall, hconv] at hmem
          · have hs : s = .noMemory := by
              simp [ServerProxy_pvAttach, hatt, hcall, hconv] at hmem
              exact hmem
            subst hs
            rw [to_attach_return_noMemory v hconv]

/-- C9 witness: a handler answering pvAttach("missing:pv") with the
NotFound member yields the NotFound status, never NoMemory. -/
theorem pvAttach_defaults_to_notFound_witness :
    ServerProxy_pvAttach
        { pvExistTestAttr := some (fun _ => .ret (.existsResp .notExistsHere))
          pvAttachAttr := some (fun _ => .ret (.attachResp .notFound)) }
        "missing:pv"
      = .status .pvNotFound :=
  ((pvAttach_defaults_to_notFound
      { pvExistTestAttr := some (fun _ => .ret (.existsResp .notExistsHere))
        pvAttachAttr := some (fun _ => .ret (.attachResp .notFound)) }
      "missing:pv").2.1
    (fun _ => .ret (.attachResp .notFound)) rfl).2.2 rfl

/-- C10: the bridge-supplied default handler methods describe a scalar
string PV that rejects all access: type() is STRING, count() is 1, read()
is None, write(value, timestamp) is False, interestRegister() is False,
and the server defaults answer NOT_EXISTS_HERE and NOT_FOUND whenever
their arguments parse. -/
theorem default_methods_conservative (v a1 a2 : PyVal)
    (p : (Int × Int) × String) (q : String) :
    PV_default_type = .typeTag .string ∧
    PV_default_count = .pyInt 1 ∧
    PV_default_read = .pyNone ∧
    PV_default_write v = .pyBool false ∧
    PV_default_interestRegister = .pyBool false ∧
    (parseExistArgs a1 = some p →
      Server_default_pvExistTest a1 = some (.existsResp .notExistsHere)) ∧
    (parseAttachArgs a2 = some q →
      Server_default_pvAttach a2 = some (.attachResp .notFound)) := by
  refine ⟨rfl, rfl, rfl, rfl, rfl, ?_, ?_⟩
  · intro hp
    simp [Server_default_pvExistTest, hp]
  · intro hq
    simp [Server_default_pvAttach, hq]

/-- C10 witness: the server defaults at concrete well-formed arguments. -/
theorem default_methods_conservative_witness :
    Server_default_pvExistTest
        (.pyTuple [.pyTuple [.pyInt 1, .pyInt 2], .pyBytes "pv"])
      = some (.existsResp .notExistsHere) ∧
    Server_default_pvAttach (.pyTuple [.pyBytes "pv"])
      = some (.attachResp .notFound) :=
  ⟨(default_methods_conservative .pyNone
      (.pyTuple [.pyTuple [.pyInt 1, .pyInt 2], .pyBytes "pv"])
      (.pyTuple [.pyBytes "pv"]) ((1, 2), "pv") "pv").2.2.2.2.2.1 rfl,
   (default_methods_conservative .pyNone
      (.pyTuple [.pyTuple [.pyInt 1, .pyInt 2], .pyBytes "pv"])
      (.pyTuple [.pyBytes "pv"]) ((1, 2), "pv") "pv").2.2.2.2.2.2 rfl⟩

end ChannelAccessServer
